import Mathlib

/-!
Verification of the AWS Lambda example handler
(`examples/src/lambda_function.py`).

The handler is modelled over a type `PyVal` of Python values that can occur
in a Lambda event: JSON-representable values (strings, integers, booleans,
`None`, lists, dictionaries with string keys) plus abstract non-JSON-serializable
objects (`PyVal.obj`, carrying the class name).  `json.dumps` is modelled by
`jsonDumps`, which fails with a `TypeError` on non-serializable objects, exactly
exactly as in Python; the other potentially raising operation (attribute access on
a non-mapping event) are likewise modelled in the `Except PyErr` monad, and the
handler sequences them without any handler, mirroring the absence of
`try`/`except` in the source.
-/

/-- Python values that can appear in a Lambda event or response.  Numbers are
modelled as integers; `obj` is an abstract object (with its class name) that is
not JSON serializable. -/
inductive PyVal where
  | str (s : String)
  | int (n : Int)
  | bool (b : Bool)
  | none
  | list (xs : List PyVal)
  | dict (kvs : List (String × PyVal))
  | obj (cls : String)

/-- Python exceptions that the operations of the handler can raise. -/
inductive PyErr where
  | typeError (msg : String)
  | attributeError (msg : String)

/-- Lower-case hexadecimal digit. -/
def hexDigit (n : Nat) : Char :=
  if n < 10 then Char.ofNat (48 + n) else Char.ofNat (87 + n)

/-- Four-digit hexadecimal rendering, as in JSON `\uXXXX` escapes. -/
def hex4 (n : Nat) : String :=
  String.mk [hexDigit (n / 4096 % 16), hexDigit (n / 256 % 16),
    hexDigit (n / 16 % 16), hexDigit (n % 16)]

/-- Two-digit hexadecimal rendering, as in Python `\xXX` escapes. -/
def hex2 (n : Nat) : String :=
  String.mk [hexDigit (n / 16 % 16), hexDigit (n % 16)]

/-- JSON escaping of one character, following `json.dumps` with its default
`ensure_ascii=True`: `"` and `\` are escaped, control characters get their
short escapes or `\uXXXX`, characters above `~` are escaped as `\uXXXX`
(with surrogate pairs beyond the basic multilingual plane). -/
def jsonEscapeChar (c : Char) : String :=
  if c = '"' then "\\\""
  else if c = '\\' then "\\\\"
  else if c = '\n' then "\\n"
  else if c = '\t' then "\\t"
  else if c = '\r' then "\\r"
  else if c = '\x08' then "\\b"
  else if c = '\x0c' then "\\f"
  else if c.toNat < 0x20 ∨ c.toNat > 0x7e then
    if c.toNat ≥ 0x10000 then
      let m := c.toNat - 0x10000
      "\\u" ++ hex4 (0xd800 + m / 0x400) ++ "\\u" ++ hex4 (0xdc00 + m % 0x400)
    else "\\u" ++ hex4 c.toNat
  else String.singleton c

/-- JSON rendering of a string literal. -/
def jsonQuote (s : String) : String :=
  "\"" ++ String.join (s.data.map jsonEscapeChar) ++ "\""

/-- The name of the Python type of a value, as it appears in exception messages. -/
def pyTypeName : PyVal → String
  | .str _ => "str"
  | .int _ => "int"
  | .bool _ => "bool"
  | .none => "NoneType"
  | .list _ => "list"
  | .dict _ => "dict"
  | .obj cls => cls

mutual
/-- Model of the Python function `json.dumps` with default arguments (separators
`", "` and `": "`): raises `TypeError` on a non-serializable object,
otherwise produces the JSON text. -/
def jsonDumps : PyVal → Except PyErr String
  | .str s => .ok (jsonQuote s)
  | .int n => .ok (toString n)
  | .bool b => .ok (if b then "true" else "false")
  | .none => .ok "null"
  | .list xs => do
      let ss ← jsonDumpsList xs
      .ok ("[" ++ String.intercalate ", " ss ++ "]")
  | .dict kvs => do
      let ss ← jsonDumpsDict kvs
      .ok ("\x7b" ++ String.intercalate ", " ss ++ "\x7d")
  | .obj cls => .error (.typeError ("Object of type " ++ cls ++ " is not JSON serializable"))

/-- Serialization of the elements of a JSON array. -/
def jsonDumpsList : List PyVal → Except PyErr (List String)
  | [] => .ok []
  | x :: xs => do
      let s ← jsonDumps x
      let ss ← jsonDumpsList xs
      .ok (s :: ss)

/-- Serialization of the `"key": value` entries of a JSON object. -/
def jsonDumpsDict : List (String × PyVal) → Except PyErr (List String)
  | [] => .ok []
  | (k, v) :: kvs => do
      let s ← jsonDumps v
      let ss ← jsonDumpsDict kvs
      .ok ((jsonQuote k ++ ": " ++ s) :: ss)
end

/-- Escaping of one character inside a Python string `repr`, given the chosen
quote character: backslash, the quote character, and the common control
characters are escaped; other C0 control characters and DEL get `\xXX`.
(Python additionally escapes non-printable characters outside ASCII, a case
no claim exercises.) -/
def pyReprEscapeChar (q c : Char) : String :=
  if c = '\\' then "\\\\"
  else if c = q then "\\" ++ String.singleton q
  else if c = '\n' then "\\n"
  else if c = '\r' then "\\r"
  else if c = '\t' then "\\t"
  else if c.toNat < 0x20 ∨ c.toNat = 0x7f then "\\x" ++ hex2 c.toNat
  else String.singleton c

/-- Python `repr` of a string: single-quoted, except double-quoted when the
string contains a single quote but no double quote. -/
def pyReprStr (s : String) : String :=
  let q : Char := if s.contains (Char.ofNat 39) ∧ ¬ s.contains '"' then '"' else Char.ofNat 39
  String.singleton q ++ String.join (s.data.map (pyReprEscapeChar q)) ++ String.singleton q

mutual
/-- Model of the Python function `repr`.  For such an object Python prints
`<Cls object at 0x...>`; the model omits the address (an `obj` inside the
event makes the handler raise at its first `json.dumps`, so this case is
unreachable in any returned response). -/
def pyRepr : PyVal → String
  | .str s => pyReprStr s
  | .int n => toString n
  | .bool b => if b then "True" else "False"
  | .none => "None"
  | .list xs => "[" ++ String.intercalate ", " (pyReprList xs) ++ "]"
  | .dict kvs => "\x7b" ++ String.intercalate ", " (pyReprDict kvs) ++ "\x7d"
  | .obj cls => "<" ++ cls ++ " object>"

/-- Representations of the elements of a list. -/
def pyReprList : List PyVal → List String
  | [] => []
  | x :: xs => pyRepr x :: pyReprList xs

/-- Representations of the entries of a dictionary. -/
def pyReprDict : List (String × PyVal) → List String
  | [] => []
  | (k, v) :: kvs => (pyReprStr k ++ ": " ++ pyRepr v) :: pyReprDict kvs
end

/-- Model of the Python function `str`, as used by the f-string `f"Hello, {name}!"`:
identity on strings, `repr` on everything else. -/
def pyStr : PyVal → String
  | .str s => s
  | v => pyRepr v

/-- The process environment: a finite map from variable names to values. -/
abbrev Env := List (String × String)

/-- Model of `os.environ.get(key, d)`. -/
def envGet (env : Env) (key d : String) : String :=
  match env.lookup key with
  | Option.some v => v
  | Option.none => d

/-- Model of `event.get(key, d)`: a dictionary lookup with default; on a
non-mapping receiver Python raises `AttributeError`. -/
def pyDictGet (v : PyVal) (key : String) (d : PyVal) : Except PyErr PyVal :=
  match v with
  | .dict kvs => .ok ((kvs.lookup key).getD d)
  | _ => .error (.attributeError
      ("\x27" ++ pyTypeName v ++ "\x27 object has no attribute \x27get\x27"))

/-- The Lambda execution context: the handler reads only `function_version`. -/
structure LambdaContext where
  function_version : String

/-- Model of the conditional expression
`context.function_version if context else "unknown"`: a falsy `context`
(Python `if context`) is modelled by `Option.none`. -/
def ctxVersion : Option LambdaContext → String
  | Option.some c => c.function_version
  | Option.none => "unknown"

/-- Model of `lambda_handler(event, context)` from
`examples/src/lambda_function.py`, with the process environment made an
explicit argument and the two `logger.info` lines collected in a list.
Each fallible step (`json.dumps(event)`, `event.get`) propagates its
exception directly: the source has no `try`/`except`.  An error result of
this model carries no log lines; `lambda_handler_logged` below additionally
keeps the lines already emitted before a raise. -/
def lambda_handler (env : Env) (event : PyVal) (context : Option LambdaContext) :
    Except PyErr (PyVal × List String) :=
  match jsonDumps event with
  | .error e => .error e
  | .ok eventStr =>
    let log1 := "Received event: " ++ eventStr
    let log_level := envGet env "LOG_LEVEL" "INFO"
    let stage := envGet env "STAGE" "development"
    match pyDictGet event "name" (.str "World") with
    | .error e => .error e
    | .ok name =>
      match jsonDumps (.dict [("message", .str ("Hello, " ++ pyStr name ++ "!")),
          ("stage", .str stage), ("log_level", .str log_level),
          ("function_version", .str (ctxVersion context))]) with
      | .error e => .error e
      | .ok body =>
        let response := PyVal.dict [("statusCode", .int 200), ("body", .str body)]
        match jsonDumps response with
        | .error e => .error e
        | .ok responseStr =>
          .ok (response, [log1, "Returning response: " ++ responseStr])

/-- Log-faithful model of `lambda_handler(event, context)`: the same
line-by-line translation, but the result pairs the outcome (response or
exception) with every log line emitted up to that point.  In the source the
"Received event" line at line 21 is printed before `event.get` at line 26 can
raise, so a raising invocation has emitted one line when event serialization
succeeded and zero lines when `json.dumps(event)` itself raised. -/
def lambda_handler_logged (env : Env) (event : PyVal) (context : Option LambdaContext) :
    Except PyErr PyVal × List String :=
  match jsonDumps event with
  | .error e => (.error e, [])
  | .ok eventStr =>
    let log1 := "Received event: " ++ eventStr
    let log_level := envGet env "LOG_LEVEL" "INFO"
    let stage := envGet env "STAGE" "development"
    match pyDictGet event "name" (.str "World") with
    | .error e => (.error e, [log1])
    | .ok name =>
      match jsonDumps (.dict [("message", .str ("Hello, " ++ pyStr name ++ "!")),
          ("stage", .str stage), ("log_level", .str log_level),
          ("function_version", .str (ctxVersion context))]) with
      | .error e => (.error e, [log1])
      | .ok body =>
        let response := PyVal.dict [("statusCode", .int 200), ("body", .str body)]
        match jsonDumps response with
        | .error e => (.error e, [log1])
        | .ok responseStr =>
          (.ok response, [log1, "Returning response: " ++ responseStr])

/-- The `statusCode` field of a returned response dictionary. -/
def respStatus : PyVal → Option Int
  | .dict kvs =>
    match kvs.lookup "statusCode" with
    | Option.some (.int n) => Option.some n
    | _ => Option.none
  | _ => Option.none

/-- The `body` field of a returned response dictionary, when it is a string. -/
def respBody : PyVal → Option String
  | .dict kvs =>
    match kvs.lookup "body" with
    | Option.some (.str s) => Option.some s
    | _ => Option.none
  | _ => Option.none

/-- The body dictionary the handler serializes, as a function of the name
value, the environment and the context. -/
def bodyDict (env : Env) (name : PyVal) (context : Option LambdaContext) : PyVal :=
  .dict [("message", .str ("Hello, " ++ pyStr name ++ "!")),
    ("stage", .str (envGet env "STAGE" "development")),
    ("log_level", .str (envGet env "LOG_LEVEL" "INFO")),
    ("function_version", .str (ctxVersion context))]

theorem jsonDumps_bodyDict_ok (env : Env) (name : PyVal) (context : Option LambdaContext) :
    ∃ s, jsonDumps (bodyDict env name context) = Except.ok s :=
  ⟨_, rfl⟩

/-- A failing `json.dumps(event)` propagates: the handler raises the same
exception. -/
theorem lambda_handler_dumps_error (env : Env) (event : PyVal)
    (context : Option LambdaContext) (e : PyErr)
    (he : jsonDumps event = Except.error e) :
    lambda_handler env event context = Except.error e := by
  unfold lambda_handler
  rw [he]

/-- A failing `event.get` (serializable non-mapping event) propagates: the
handler raises the `AttributeError`. -/
theorem lambda_handler_nondict (env : Env) (event : PyVal)
    (context : Option LambdaContext) (es : String)
    (hes : jsonDumps event = Except.ok es) (hnd : ∀ kvs, event ≠ PyVal.dict kvs) :
    lambda_handler env event context = Except.error (PyErr.attributeError
      ("\x27" ++ pyTypeName event ++ "\x27 object has no attribute \x27get\x27")) := by
  unfold lambda_handler
  rw [hes]
  cases event with
  | dict kvs => exact absurd rfl (hnd kvs)
  | str s => rfl
  | int n => rfl
  | bool b => rfl
  | none => rfl
  | list xs => rfl
  | obj cls => rfl

/-- Computation rule: on a dictionary event whose serialization succeeds, the
handler returns `{"statusCode": 200, "body": b}` where `b` serializes the
body dictionary built from the looked-up name, the environment and the
context, together with the two log lines. -/
theorem lambda_handler_dict_eq (env : Env) (kvs : List (String × PyVal))
    (context : Option LambdaContext) (es : String)
    (hes : jsonDumps (PyVal.dict kvs) = Except.ok es) :
    ∃ body rs,
      jsonDumps (bodyDict env ((kvs.lookup "name").getD (PyVal.str "World")) context) =
        Except.ok body ∧
      jsonDumps (PyVal.dict [("statusCode", PyVal.int 200), ("body", PyVal.str body)]) =
        Except.ok rs ∧
      lambda_handler env (PyVal.dict kvs) context =
        Except.ok (PyVal.dict [("statusCode", PyVal.int 200), ("body", PyVal.str body)],
          ["Received event: " ++ es, "Returning response: " ++ rs]) := by
  refine ⟨_, _, rfl, rfl, ?_⟩
  unfold lambda_handler
  rw [hes]
  rfl

/-- Inversion: whenever the handler returns, the event was a dictionary whose
serialization succeeded, the response is `{"statusCode": 200, "body": b}`
where `b` is the serialization of the body dictionary, and the log is the
two lines in order. -/
theorem lambda_handler_ok_inv (env : Env) (event : PyVal) (context : Option LambdaContext)
    (r : PyVal) (logs : List String)
    (h : lambda_handler env event context = Except.ok (r, logs)) :
    ∃ kvs es body rs,
      event = PyVal.dict kvs ∧
      jsonDumps event = Except.ok es ∧
      jsonDumps (bodyDict env ((kvs.lookup "name").getD (PyVal.str "World")) context) =
        Except.ok body ∧
      r = PyVal.dict [("statusCode", PyVal.int 200), ("body", PyVal.str body)] ∧
      jsonDumps r = Except.ok rs ∧
      logs = ["Received event: " ++ es, "Returning response: " ++ rs] := by
  cases hE : jsonDumps event with
  | error e => rw [lambda_handler_dumps_error env event context e hE] at h; cases h
  | ok es =>
    cases event with
    | dict kvs =>
      obtain ⟨body, rs, hb, hr, heq⟩ := lambda_handler_dict_eq env kvs context es hE
      rw [heq] at h
      cases h
      exact ⟨kvs, es, body, rs, rfl, rfl, hb, rfl, hr, rfl⟩
    | str s => rw [lambda_handler_nondict env _ context es hE (by intro kvs hk; cases hk)] at h; cases h
    | int n => rw [lambda_handler_nondict env _ context es hE (by intro kvs hk; cases hk)] at h; cases h
    | bool b => rw [lambda_handler_nondict env _ context es hE (by intro kvs hk; cases hk)] at h; cases h
    | none => rw [lambda_handler_nondict env _ context es hE (by intro kvs hk; cases hk)] at h; cases h
    | list xs => rw [lambda_handler_nondict env _ context es hE (by intro kvs hk; cases hk)] at h; cases h
    | obj cls => rw [lambda_handler_nondict env _ context es hE (by intro kvs hk; cases hk)] at h; cases h

/-- Claim C1: for every event mapping that contains the key `"name"` with a
string value `X`, the body returned by the handler is the JSON serialization
of a mapping whose `"message"` field equals `"Hello, X!"`. -/
theorem message_reflects_name (env : Env) (kvs : List (String × PyVal))
    (context : Option LambdaContext) (X : String) (r : PyVal) (logs : List String)
    (hname : kvs.lookup "name" = Option.some (PyVal.str X))
    (h : lambda_handler env (PyVal.dict kvs) context = Except.ok (r, logs)) :
    ∃ m body, respBody r = Option.some body ∧
      jsonDumps (PyVal.dict m) = Except.ok body ∧
      m.lookup "message" = Option.some (PyVal.str ("Hello, " ++ X ++ "!")) := by
  obtain ⟨kvs2, es, body, rs, hev, hes, hb, hres, hrs, hlogs⟩ :=
    lambda_handler_ok_inv env (PyVal.dict kvs) context r logs h
  cases hev
  rw [hname] at hb
  subst hres
  exact ⟨_, body, rfl, hb, rfl⟩

theorem message_reflects_name_witness :
    ∃ m body,
      respBody (PyVal.dict [("statusCode", PyVal.int 200), ("body", PyVal.str
        "\x7b\"message\": \"Hello, Ada!\", \"stage\": \"development\", \"log_level\": \"INFO\", \"function_version\": \"3\"\x7d")]) =
        Option.some body ∧
      jsonDumps (PyVal.dict m) = Except.ok body ∧
      m.lookup "message" = Option.some (PyVal.str ("Hello, " ++ "Ada" ++ "!")) :=
  message_reflects_name [] [("name", PyVal.str "Ada")] (Option.some ⟨"3"⟩) "Ada" _ _ rfl rfl

/-- Claim C2: for every event and every context, whenever the handler returns
a response, its `statusCode` is `200`. -/
theorem statusCode_always_200 (env : Env) (event : PyVal)
    (context : Option LambdaContext) (r : PyVal) (logs : List String)
    (h : lambda_handler env event context = Except.ok (r, logs)) :
    respStatus r = Option.some 200 := by
  obtain ⟨kvs, es, body, rs, hev, hes, hb, hres, hrs, hlogs⟩ :=
    lambda_handler_ok_inv env event context r logs h
  subst hres
  rfl

theorem statusCode_always_200_witness :
    respStatus (PyVal.dict [("statusCode", PyVal.int 200), ("body", PyVal.str
      "\x7b\"message\": \"Hello, World!\", \"stage\": \"development\", \"log_level\": \"INFO\", \"function_version\": \"unknown\"\x7d")]) =
      Option.some 200 :=
  statusCode_always_200 [] (PyVal.dict []) Option.none _ _ rfl

/-- Claim C3: whenever the handler returns, the `stage` and `log_level` fields
of the body are the values of the `STAGE` and `LOG_LEVEL` environment
variables as passed to this call, with defaults `"development"` and `"INFO"`
when the variable is unset. -/
theorem stage_log_level_from_env (env : Env) (event : PyVal)
    (context : Option LambdaContext) (r : PyVal) (logs : List String)
    (h : lambda_handler env event context = Except.ok (r, logs)) :
    ∃ m body, respBody r = Option.some body ∧
      jsonDumps (PyVal.dict m) = Except.ok body ∧
      m.lookup "stage" = Option.some (PyVal.str
        (match env.lookup "STAGE" with
         | Option.some v => v
         | Option.none => "development")) ∧
      m.lookup "log_level" = Option.some (PyVal.str
        (match env.lookup "LOG_LEVEL" with
         | Option.some v => v
         | Option.none => "INFO")) := by
  obtain ⟨kvs, es, body, rs, hev, hes, hb, hres, hrs, hlogs⟩ :=
    lambda_handler_ok_inv env event context r logs h
  subst hres
  exact ⟨_, body, rfl, hb, rfl, rfl⟩

theorem stage_log_level_from_env_witness :
    ∃ m body,
      respBody (PyVal.dict [("statusCode", PyVal.int 200), ("body", PyVal.str
        "\x7b\"message\": \"Hello, World!\", \"stage\": \"prod\", \"log_level\": \"DEBUG\", \"function_version\": \"unknown\"\x7d")]) =
        Option.some body ∧
      jsonDumps (PyVal.dict m) = Except.ok body ∧
      m.lookup "stage" = Option.some (PyVal.str
        (match [("STAGE", "prod"), ("LOG_LEVEL", "DEBUG")].lookup "STAGE" with
         | Option.some v => v
         | Option.none => "development")) ∧
      m.lookup "log_level" = Option.some (PyVal.str
        (match [("STAGE", "prod"), ("LOG_LEVEL", "DEBUG")].lookup "LOG_LEVEL" with
         | Option.some v => v
         | Option.none => "INFO")) :=
  stage_log_level_from_env [("STAGE", "prod"), ("LOG_LEVEL", "DEBUG")]
    (PyVal.dict []) Option.none _ _ rfl

/-- Claim C4: whenever the handler returns, the `function_version` field of
the body is the `function_version` of the context when the context is present and
truthy, and `"unknown"` otherwise. -/
theorem function_version_from_context (env : Env) (event : PyVal)
    (context : Option LambdaContext) (r : PyVal) (logs : List String)
    (h : lambda_handler env event context = Except.ok (r, logs)) :
    ∃ m body, respBody r = Option.some body ∧
      jsonDumps (PyVal.dict m) = Except.ok body ∧
      m.lookup "function_version" = Option.some (PyVal.str
        (match context with
         | Option.some c => c.function_version
         | Option.none => "unknown")) := by
  obtain ⟨kvs, es, body, rs, hev, hes, hb, hres, hrs, hlogs⟩ :=
    lambda_handler_ok_inv env event context r logs h
  subst hres
  refine ⟨_, body, rfl, hb, ?_⟩
  cases context with
  | some c => rfl
  | none => rfl

theorem function_version_from_context_witness :
    ∃ m body,
      respBody (PyVal.dict [("statusCode", PyVal.int 200), ("body", PyVal.str
        "\x7b\"message\": \"Hello, World!\", \"stage\": \"development\", \"log_level\": \"INFO\", \"function_version\": \"7\"\x7d")]) =
        Option.some body ∧
      jsonDumps (PyVal.dict m) = Except.ok body ∧
      m.lookup "function_version" = Option.some (PyVal.str
        (match Option.some (LambdaContext.mk "7") with
         | Option.some c => c.function_version
         | Option.none => "unknown")) :=
  function_version_from_context [] (PyVal.dict []) (Option.some ⟨"7"⟩) _ _ rfl

/-- Claim C5: for every event mapping with no `"name"` key, the `message`
field of the returned body equals `"Hello, World!"`. -/
theorem message_default_world (env : Env) (kvs : List (String × PyVal))
    (context : Option LambdaContext) (r : PyVal) (logs : List String)
    (hname : kvs.lookup "name" = Option.none)
    (h : lambda_handler env (PyVal.dict kvs) context = Except.ok (r, logs)) :
    ∃ m body, respBody r = Option.some body ∧
      jsonDumps (PyVal.dict m) = Except.ok body ∧
      m.lookup "message" = Option.some (PyVal.str "Hello, World!") := by
  obtain ⟨kvs2, es, body, rs, hev, hes, hb, hres, hrs, hlogs⟩ :=
    lambda_handler_ok_inv env (PyVal.dict kvs) context r logs h
  cases hev
  rw [hname] at hb
  subst hres
  exact ⟨_, body, rfl, hb, rfl⟩

theorem message_default_world_witness :
    ∃ m body,
      respBody (PyVal.dict [("statusCode", PyVal.int 200), ("body", PyVal.str
        "\x7b\"message\": \"Hello, World!\", \"stage\": \"development\", \"log_level\": \"INFO\", \"function_version\": \"unknown\"\x7d")]) =
        Option.some body ∧
      jsonDumps (PyVal.dict m) = Except.ok body ∧
      m.lookup "message" = Option.some (PyVal.str "Hello, World!") :=
  message_default_world [] [] Option.none _ _ rfl rfl

set_option maxRecDepth 20000 in
/-- Claim C6: on the event `{"name": "Ada"}` with an empty environment and a
context whose `function_version` is `"3"`, the handler returns statusCode 200
and a body that is the JSON serialization of the mapping
`message = "Hello, Ada!"`, `stage = "development"`, `log_level = "INFO"`,
`function_version = "3"`. -/
theorem scenario_ada :
    lambda_handler [] (PyVal.dict [("name", PyVal.str "Ada")]) (Option.some ⟨"3"⟩) =
      Except.ok (PyVal.dict [("statusCode", PyVal.int 200), ("body", PyVal.str
          "\x7b\"message\": \"Hello, Ada!\", \"stage\": \"development\", \"log_level\": \"INFO\", \"function_version\": \"3\"\x7d")],
        ["Received event: \x7b\"name\": \"Ada\"\x7d",
         "Returning response: \x7b\"statusCode\": 200, \"body\": \"\x7b\\\"message\\\": \\\"Hello, Ada!\\\", \\\"stage\\\": \\\"development\\\", \\\"log_level\\\": \\\"INFO\\\", \\\"function_version\\\": \\\"3\\\"\x7d\"\x7d"]) ∧
    jsonDumps (PyVal.dict [("message", PyVal.str "Hello, Ada!"),
        ("stage", PyVal.str "development"), ("log_level", PyVal.str "INFO"),
        ("function_version", PyVal.str "3")]) =
      Except.ok "\x7b\"message\": \"Hello, Ada!\", \"stage\": \"development\", \"log_level\": \"INFO\", \"function_version\": \"3\"\x7d" ∧
    respStatus (PyVal.dict [("statusCode", PyVal.int 200), ("body", PyVal.str
        "\x7b\"message\": \"Hello, Ada!\", \"stage\": \"development\", \"log_level\": \"INFO\", \"function_version\": \"3\"\x7d")]) =
      Option.some 200 :=
  ⟨rfl, rfl, rfl⟩

/-- Claim C7: the handler has no local error recovery: it raises exactly when
`json.dumps(event)` raises or when `event.get` raises (serializable
non-mapping event), propagating that same exception unhandled; in that case
no response is produced (the result is the exception, not a response). -/
theorem errors_propagate_unhandled (env : Env) (event : PyVal)
    (context : Option LambdaContext) (e : PyErr) :
    lambda_handler env event context = Except.error e ↔
      (jsonDumps event = Except.error e ∨
        ((∃ s, jsonDumps event = Except.ok s) ∧
          pyDictGet event "name" (PyVal.str "World") = Except.error e)) := by
  constructor
  · intro h
    cases hE : jsonDumps event with
    | error e2 =>
      rw [lambda_handler_dumps_error env event context e2 hE] at h
      injection h with h2
      subst h2
      exact Or.inl rfl
    | ok es =>
      cases event with
      | dict kvs =>
        obtain ⟨body, rs, hb, hr, heq⟩ := lambda_handler_dict_eq env kvs context es hE
        rw [heq] at h
        cases h
      | str s =>
        rw [lambda_handler_nondict env _ context es hE (fun kvs hk => by cases hk)] at h
        injection h with h2
        subst h2
        exact Or.inr ⟨⟨es, rfl⟩, rfl⟩
      | int n =>
        rw [lambda_handler_nondict env _ context es hE (fun kvs hk => by cases hk)] at h
        injection h with h2
        subst h2
        exact Or.inr ⟨⟨es, rfl⟩, rfl⟩
      | bool b =>
        rw [lambda_handler_nondict env _ context es hE (fun kvs hk => by cases hk)] at h
        injection h with h2
        subst h2
        exact Or.inr ⟨⟨es, rfl⟩, rfl⟩
      | none =>
        rw [lambda_handler_nondict env _ context es hE (fun kvs hk => by cases hk)] at h
        injection h with h2
        subst h2
        exact Or.inr ⟨⟨es, rfl⟩, rfl⟩
      | list xs =>
        rw [lambda_handler_nondict env _ context es hE (fun kvs hk => by cases hk)] at h
        injection h with h2
        subst h2
        exact Or.inr ⟨⟨es, rfl⟩, rfl⟩
      | obj cls =>
        rw [lambda_handler_nondict env _ context es hE (fun kvs hk => by cases hk)] at h
        injection h with h2
        subst h2
        exact Or.inr ⟨⟨es, rfl⟩, rfl⟩
  · intro h
    rcases h with he | ⟨⟨s, hs⟩, hg⟩
    · exact lambda_handler_dumps_error env event context e he
    · cases event with
      | dict kvs => simp [pyDictGet] at hg
      | str s2 =>
        injection hg with h2
        subst h2
        exact lambda_handler_nondict env _ context s hs (fun kvs hk => by cases hk)
      | int n =>
        injection hg with h2
        subst h2
        exact lambda_handler_nondict env _ context s hs (fun kvs hk => by cases hk)
      | bool b =>
        injection hg with h2
        subst h2
        exact lambda_handler_nondict env _ context s hs (fun kvs hk => by cases hk)
      | none =>
        injection hg with h2
        subst h2
        exact lambda_handler_nondict env _ context s hs (fun kvs hk => by cases hk)
      | list xs =>
        injection hg with h2
        subst h2
        exact lambda_handler_nondict env _ context s hs (fun kvs hk => by cases hk)
      | obj cls =>
        injection hg with h2
        subst h2
        exact lambda_handler_nondict env _ context s hs (fun kvs hk => by cases hk)

/-- Claim C8: whenever the handler returns, the `body` field of the response is a string
that is the JSON serialization of a mapping with exactly the keys `message`,
`stage`, `log_level`, `function_version`, in that order; no path returns a
body of any other shape. -/
theorem body_is_json_mapping (env : Env) (event : PyVal)
    (context : Option LambdaContext) (r : PyVal) (logs : List String)
    (h : lambda_handler env event context = Except.ok (r, logs)) :
    ∃ m body, respBody r = Option.some body ∧
      jsonDumps (PyVal.dict m) = Except.ok body ∧
      m.map Prod.fst = ["message", "stage", "log_level", "function_version"] := by
  obtain ⟨kvs, es, body, rs, hev, hes, hb, hres, hrs, hlogs⟩ :=
    lambda_handler_ok_inv env event context r logs h
  subst hres
  exact ⟨_, body, rfl, hb, rfl⟩

theorem body_is_json_mapping_witness :
    ∃ m body,
      respBody (PyVal.dict [("statusCode", PyVal.int 200), ("body", PyVal.str
        "\x7b\"message\": \"Hello, World!\", \"stage\": \"development\", \"log_level\": \"INFO\", \"function_version\": \"unknown\"\x7d")]) =
        Option.some body ∧
      jsonDumps (PyVal.dict m) = Except.ok body ∧
      m.map Prod.fst = ["message", "stage", "log_level", "function_version"] :=
  body_is_json_mapping [] (PyVal.dict [("x", PyVal.int 1)]) Option.none _ _ rfl

/-- A failing `json.dumps(event)` in the log-faithful model: the handler
raises the same exception having emitted no log line. -/
theorem lambda_handler_logged_dumps_error (env : Env) (event : PyVal)
    (context : Option LambdaContext) (e : PyErr)
    (he : jsonDumps event = Except.error e) :
    lambda_handler_logged env event context = (Except.error e, []) := by
  unfold lambda_handler_logged
  rw [he]

/-- A failing `event.get` in the log-faithful model: the handler raises the
`AttributeError` having emitted exactly the "Received event" line. -/
theorem lambda_handler_logged_nondict (env : Env) (event : PyVal)
    (context : Option LambdaContext) (es : String)
    (hes : jsonDumps event = Except.ok es) (hnd : ∀ kvs, event ≠ PyVal.dict kvs) :
    lambda_handler_logged env event context =
      (Except.error (PyErr.attributeError
        ("\x27" ++ pyTypeName event ++ "\x27 object has no attribute \x27get\x27")),
       ["Received event: " ++ es]) := by
  unfold lambda_handler_logged
  rw [hes]
  cases event with
  | dict kvs => exact absurd rfl (hnd kvs)
  | str s => rfl
  | int n => rfl
  | bool b => rfl
  | none => rfl
  | list xs => rfl
  | obj cls => rfl

/-- Computation rule for the log-faithful model on a dictionary event whose
serialization succeeds: the response and the two log lines. -/
theorem lambda_handler_logged_dict_eq (env : Env) (kvs : List (String × PyVal))
    (context : Option LambdaContext) (es : String)
    (hes : jsonDumps (PyVal.dict kvs) = Except.ok es) :
    ∃ body rs,
      jsonDumps (bodyDict env ((kvs.lookup "name").getD (PyVal.str "World")) context) =
        Except.ok body ∧
      jsonDumps (PyVal.dict [("statusCode", PyVal.int 200), ("body", PyVal.str body)]) =
        Except.ok rs ∧
      lambda_handler_logged env (PyVal.dict kvs) context =
        (Except.ok (PyVal.dict [("statusCode", PyVal.int 200), ("body", PyVal.str body)]),
         ["Received event: " ++ es, "Returning response: " ++ rs]) := by
  refine ⟨_, _, rfl, rfl, ?_⟩
  unfold lambda_handler_logged
  rw [hes]
  rfl

/-- Counterexample to claim C9 as frozen: on the serializable non-mapping
event `"abc"` the handler logs the "Received event" line and then raises
`AttributeError` at `event.get`, so this invocation emits exactly one
informational log line, not two. -/
theorem logs_not_always_two_lines :
    lambda_handler_logged [] (PyVal.str "abc") Option.none =
      (Except.error (PyErr.attributeError
        "\x27str\x27 object has no attribute \x27get\x27"),
       ["Received event: \"abc\""]) ∧
    (lambda_handler_logged [] (PyVal.str "abc") Option.none).2.length = 1 :=
  ⟨rfl, rfl⟩

/-- Claim C9 (amended): on every invocation that returns, the handler emits
exactly two informational log lines, in order: first the serialized input
event (logged before the response is computed), then the serialized response
(logged before it is returned); a raising invocation keeps only the lines
already emitted before the raise. -/
theorem logs_two_lines_on_return (env : Env) (event : PyVal)
    (context : Option LambdaContext) (r : PyVal) (logs : List String)
    (h : lambda_handler_logged env event context = (Except.ok r, logs)) :
    ∃ es rs, jsonDumps event = Except.ok es ∧ jsonDumps r = Except.ok rs ∧
      logs = ["Received event: " ++ es, "Returning response: " ++ rs] := by
  cases hE : jsonDumps event with
  | error e =>
    rw [lambda_handler_logged_dumps_error env event context e hE] at h
    simp at h
  | ok es =>
    cases event with
    | dict kvs =>
      obtain ⟨body, rs, hb, hr, heq⟩ := lambda_handler_logged_dict_eq env kvs context es hE
      rw [heq] at h
      injection h with h1 h2
      injection h1 with h1
      subst h1
      subst h2
      exact ⟨es, rs, rfl, hr, rfl⟩
    | str s =>
      rw [lambda_handler_logged_nondict env _ context es hE (fun kvs hk => by cases hk)] at h
      simp at h
    | int n =>
      rw [lambda_handler_logged_nondict env _ context es hE (fun kvs hk => by cases hk)] at h
      simp at h
    | bool b =>
      rw [lambda_handler_logged_nondict env _ context es hE (fun kvs hk => by cases hk)] at h
      simp at h
    | none =>
      rw [lambda_handler_logged_nondict env _ context es hE (fun kvs hk => by cases hk)] at h
      simp at h
    | list xs =>
      rw [lambda_handler_logged_nondict env _ context es hE (fun kvs hk => by cases hk)] at h
      simp at h
    | obj cls =>
      rw [lambda_handler_logged_nondict env _ context es hE (fun kvs hk => by cases hk)] at h
      simp at h

set_option maxRecDepth 20000 in
theorem logs_two_lines_on_return_witness :
    ∃ es rs, jsonDumps (PyVal.dict []) = Except.ok es ∧
      jsonDumps (PyVal.dict [("statusCode", PyVal.int 200), ("body", PyVal.str
        "\x7b\"message\": \"Hello, World!\", \"stage\": \"development\", \"log_level\": \"INFO\", \"function_version\": \"unknown\"\x7d")]) =
        Except.ok rs ∧
      (["Received event: \x7b\x7d",
        "Returning response: \x7b\"statusCode\": 200, \"body\": \"\x7b\\\"message\\\": \\\"Hello, World!\\\", \\\"stage\\\": \\\"development\\\", \\\"log_level\\\": \\\"INFO\\\", \\\"function_version\\\": \\\"unknown\\\"\x7d\"\x7d"]
        : List String) =
        ["Received event: " ++ es, "Returning response: " ++ rs] :=
  logs_two_lines_on_return [] (PyVal.dict []) Option.none _ _ rfl

/-- Claim C10: the returned response depends only on the `"name"` value of
the event, the environment and the context: two invocations under the same
environment and context whose event mappings agree on `"name"` (both absent
or both present with the same value) and which both return, return identical
responses. -/
theorem response_depends_only_on_name (env : Env) (context : Option LambdaContext)
    (kvsa kvsb : List (String × PyVal)) (ra rb : PyVal) (la lb : List String)
    (hn : kvsa.lookup "name" = kvsb.lookup "name")
    (ha : lambda_handler env (PyVal.dict kvsa) context = Except.ok (ra, la))
    (hb : lambda_handler env (PyVal.dict kvsb) context = Except.ok (rb, lb)) :
    ra = rb := by
  obtain ⟨kvsa2, esa, bodya, rsa, heva, hesa, hba, hresa, hrsa, hlogsa⟩ :=
    lambda_handler_ok_inv env (PyVal.dict kvsa) context ra la ha
  obtain ⟨kvsb2, esb, bodyb, rsb, hevb, hesb, hbb, hresb, hrsb, hlogsb⟩ :=
    lambda_handler_ok_inv env (PyVal.dict kvsb) context rb lb hb
  cases heva
  cases hevb
  rw [hn] at hba
  rw [hbb] at hba
  injection hba with hbe
  subst hresa
  subst hresb
  rw [hbe]

set_option maxRecDepth 20000 in
theorem response_depends_only_on_name_witness :
    (PyVal.dict [("statusCode", PyVal.int 200), ("body", PyVal.str
      "\x7b\"message\": \"Hello, Ada!\", \"stage\": \"development\", \"log_level\": \"INFO\", \"function_version\": \"7\"\x7d")]) =
    (PyVal.dict [("statusCode", PyVal.int 200), ("body", PyVal.str
      "\x7b\"message\": \"Hello, Ada!\", \"stage\": \"development\", \"log_level\": \"INFO\", \"function_version\": \"7\"\x7d")]) :=
  response_depends_only_on_name [] (Option.some ⟨"7"⟩)
    [("name", PyVal.str "Ada")] [("name", PyVal.str "Ada"), ("x", PyVal.int 1)]
    _ _ _ _ rfl rfl rfl
